import Mathlib

/-!
Shallow embedding of the product-image reconciliation logic of
`src/components/ProductForm.tsx` (the `ProductForm` React component), together
with theorems settling the specification claims about it.

Modelling conventions:
* React `useState` state is gathered into an explicit `FormState` record;
  each handler becomes a pure function from (environment, state) to a result.
* The two external collaborators (Supabase object store and record store) are
  an explicit environment `StoreEnv` of oracles for the outcome of each call.
* A pending upload's `File` handle is represented by its file name and its
  ephemeral object-URL preview by a `Nat` reference.
* JavaScript `arr.filter((_, index) => index !== i)` is embedded literally as
  `removeAtIdx` (filter over `enum`), and bridged to `List.eraseIdx` by a lemma.
* JavaScript truthiness of the optional numeric id (`if (initialProduct?.id)`)
  is embedded as: present and nonzero.
-/

namespace ProductForm

/-- One entry of `newImageFiles`: a selected file together with the ephemeral
object-URL preview reference created for it (`{file, preview}`). -/
structure PendingUpload where
  file : String
  preview : Nat
  deriving DecidableEq, Repr

/-- The image-related form working set of the `ProductForm` component:
`name`/`description`/`price` field state, `existingImages`,
`newImageFiles` (called `pendingUploads` in the spec) and
`imagesToDelete` (called `pendingDeletions` in the spec). -/
structure FormState where
  name : String
  description : String
  price : Int
  existingImages : List String
  pendingUploads : List PendingUpload
  pendingDeletions : List String
  deriving DecidableEq, Repr

/-- The record written to the `products` table:
`{name, description, price, images}` (no id field). -/
structure ProductData where
  name : String
  description : String
  price : Int
  images : List String
  deriving DecidableEq, Repr

/-- The record-store write issued at the end of `handleSubmit`: either
`update({...productData}).eq('id', initialProduct.id)` or
`insert(productData)`. -/
inductive RecordWrite where
  | update (id : Int) (data : ProductData)
  | insert (data : ProductData)
  deriving DecidableEq, Repr

/-- Oracles for the outcomes of the external store calls made during one
submission.  `upload i` is the result of the i-th entry's object-store upload:
`none` when `supabase.storage.upload` returns an error (the code then yields
`null`), otherwise `some url` with the public URL resolved for its path.
`deleteOk p` tells whether the object-store delete at path `p` succeeds
(failures are only logged).  `recordOk` tells whether the record-store
update/insert succeeds. -/
structure StoreEnv where
  upload : Nat → Option String
  deleteOk : String → Bool
  recordOk : Bool

/-- JavaScript `arr.filter((_, index) => index !== i)`. -/
def removeAtIdx (l : List α) (i : Nat) : List α :=
  (l.enum.filter (fun p => p.1 ≠ i)).map Prod.snd

/-- JavaScript `url.split('/').pop()`: the last element of the split, i.e. the
(possibly empty) suffix of the string after its last `/` (`split` on a string
always yields a non-empty array, so `pop` returns a string). -/
def lastSegment (url : String) : String :=
  ⟨(url.data.reverse.takeWhile (fun c => c ≠ '/')).reverse⟩

/-- `onDrop`: append the accepted files, each paired with a freshly created
preview reference, to `newImageFiles`.  Local-only, never fails. -/
def addFiles (st : FormState) (files : List PendingUpload) : FormState :=
  { st with pendingUploads := st.pendingUploads ++ files }

/-- `removeNewImage(indexToRemove)`: the code first evaluates
`newImageFiles[indexToRemove].preview` — when the index is out of range this
dereferences `undefined` and throws, modelled by `none`.  In range, it revokes
that entry's preview (returned as the first component) and removes the entry
with `filter((_, index) => index !== indexToRemove)`. -/
def removeNewImage (st : FormState) (i : Nat) : Option (Nat × FormState) :=
  match st.pendingUploads[i]? with
  | none => none
  | some entry =>
      some (entry.preview,
            { st with pendingUploads := removeAtIdx st.pendingUploads i })

/-- `removeExistingImage(indexToRemove)`: appends `existingImages[indexToRemove]`
to `imagesToDelete` and removes position `indexToRemove` from `existingImages`
with `filter((_, index) => index !== indexToRemove)`.  (Out of range the code
would append JavaScript `undefined`; only the in-range behaviour, the spec's
stated precondition, is used in the theorems — `getD` supplies a dummy.) -/
def removeExistingImage (st : FormState) (i : Nat) : FormState :=
  { st with
    pendingDeletions := st.pendingDeletions ++ [st.existingImages.getD i ""]
    existingImages := removeAtIdx st.existingImages i }

/-- `uploadImages`: one upload attempt per `newImageFiles` entry (positionally:
the i-th attempt's outcome is `env.upload i`); a failed upload maps to `null`
and is filtered out, so the result is the list of successful public URLs in
entry order. -/
def uploadImages (env : StoreEnv) (uploads : List PendingUpload) : List String :=
  (List.range uploads.length).filterMap env.upload

/-- `deleteOldImages`, restricted to its observable effect: the object-store
paths at which a delete is issued.  For each URL the path is
`products/` ++ last path segment, guarded by `if (fileName)` — a URL whose
last segment is the empty string (falsy) is skipped. -/
def deleteOldImages (pendingDeletions : List String) : List String :=
  pendingDeletions.filterMap (fun url =>
    let fileName := lastSegment url
    if fileName = "" then none else some ("products/" ++ fileName))

/-- JavaScript truthiness of `initialProduct?.id` for the optional numeric id:
truthy iff present and nonzero. -/
def idTruthy : Option Int → Bool
  | none => false
  | some i => i != 0

/-- Everything observable about one `handleSubmit` run. -/
structure SubmitResult where
  deletesIssued : List String
  deleteErrorsLogged : List String
  uploadedUrls : List String
  finalImages : List String
  recordWrite : RecordWrite
  recordErrorLogged : Bool
  rethrown : Bool
  navigated : Bool
  previewsReleased : List Nat
  state : FormState
  deriving Repr

/-- `handleSubmit`: delete phase, upload phase,
`finalImages = [...existingImages, ...newUploadedUrls]`, then the record-store
write (`update` keyed by id when `initialProduct?.id` is truthy, else
`insert`).  A record-store error is thrown, caught by the surrounding
`catch (error) { console.error(...) }` — logged, never rethrown — and skips
`router.push('/')`.  The `finally` block runs on both paths: it revokes every
preview in `newImageFiles` and resets `newImageFiles` and `imagesToDelete` to
`[]` (`existingImages` is left untouched). -/
def handleSubmit (env : StoreEnv) (initialId : Option Int) (st : FormState) :
    SubmitResult :=
  let deletes := deleteOldImages st.pendingDeletions
  let newUploadedUrls := uploadImages env st.pendingUploads
  let finalImages := st.existingImages ++ newUploadedUrls
  let productData : ProductData :=
    { name := st.name, description := st.description, price := st.price
      images := finalImages }
  let write :=
    if idTruthy initialId then
      RecordWrite.update (initialId.getD 0) productData
    else
      RecordWrite.insert productData
  { deletesIssued := deletes
    deleteErrorsLogged := deletes.filter (fun p => !env.deleteOk p)
    uploadedUrls := newUploadedUrls
    finalImages := finalImages
    recordWrite := write
    recordErrorLogged := !env.recordOk
    rethrown := false
    navigated := env.recordOk
    previewsReleased := st.pendingUploads.map (·.preview)
    state := { st with pendingUploads := [], pendingDeletions := [] } }

/-- The working-set invariant: no URL occurs twice across
`existingImages` and `pendingDeletions` (in particular the two lists are
disjoint and each is duplicate-free). -/
def ImagesInv (st : FormState) : Prop :=
  (st.existingImages ++ st.pendingDeletions).Nodup

/-- `removeAtIdx` is `List.eraseIdx`: filtering out one index keeps
everything before it and everything after it, in order. -/
theorem removeAtIdx_eq_eraseIdx (l : List α) (i : Nat) :
    removeAtIdx l i = l.eraseIdx i := by
  unfold removeAtIdx
  rw [show l.enum = l.enumFrom 0 from rfl]
  suffices h : ∀ (l : List α) (n k : Nat),
      ((l.enumFrom n).filter (fun p => p.1 ≠ k)).map Prod.snd =
        if k < n then l else l.eraseIdx (k - n) by
    simpa using h l 0 i
  intro l
  induction l with
  | nil => intro n k; simp
  | cons a t ih =>
    intro n k
    rcases Nat.lt_trichotomy k n with hk | hk | hk
    · rw [List.enumFrom_cons, List.filter_cons_of_pos (by simp; omega),
        List.map_cons, ih (n + 1) k, if_pos (by omega : k < n + 1), if_pos hk]
    · subst hk
      rw [List.enumFrom_cons, List.filter_cons_of_neg (by simp),
        ih (k + 1) k, if_pos (by omega : k < k + 1),
        if_neg (by omega : ¬ k < k), Nat.sub_self]
      rfl
    · rw [List.enumFrom_cons, List.filter_cons_of_pos (by simp; omega),
        List.map_cons, ih (n + 1) k, if_neg (by omega : ¬ k < n + 1),
        if_neg (by omega : ¬ k < n),
        (by omega : k - n = (k - (n + 1)) + 1)]
      rfl

instance (st : FormState) : Decidable (ImagesInv st) :=
  inferInstanceAs (Decidable ((st.existingImages ++ st.pendingDeletions).Nodup))

/-! Concrete fixtures used by witnesses and counterexamples. -/

/-- A sample form state: one existing image, one pending upload, one pending
deletion. -/
def stSample : FormState :=
  { name := "chair", description := "wooden chair", price := 25
    existingImages := ["https://cdn.example/storage/products/a.png"]
    pendingUploads := [⟨"new.png", 7⟩]
    pendingDeletions := ["https://cdn.example/storage/products/old.png"] }

/-- An environment in which every store call succeeds; the single upload
resolves to a fresh public URL. -/
def envGood : StoreEnv :=
  { upload := fun _ => some "https://cdn.example/storage/products/fresh.png"
    deleteOk := fun _ => true
    recordOk := true }

/-- An environment in which the record-store write fails (uploads succeed). -/
def envRecordFail : StoreEnv :=
  { upload := fun _ => some "https://cdn.example/storage/products/fresh.png"
    deleteOk := fun _ => true
    recordOk := false }

/-- An environment in which the first upload fails and the second succeeds. -/
def envHalf : StoreEnv :=
  { upload := fun i => if i = 1 then some "https://cdn.example/storage/products/second.png" else none
    deleteOk := fun _ => true
    recordOk := true }

/-- The record payload carried by either kind of record-store write. -/
def RecordWrite.payload : RecordWrite → ProductData
  | .update _ d => d
  | .insert d => d

/-- C2: on every exit path of `handleSubmit` (record-store success or failure,
any upload and delete outcomes), every ephemeral preview reference held in
`pendingUploads` is released, and afterwards `pendingUploads` and
`pendingDeletions` are both empty. -/
theorem submit_cleanup_on_all_paths (env : StoreEnv) (pid : Option Int)
    (st : FormState) :
    (handleSubmit env pid st).previewsReleased
        = st.pendingUploads.map (fun e => e.preview)
    ∧ (handleSubmit env pid st).state.pendingUploads = []
    ∧ (handleSubmit env pid st).state.pendingDeletions = [] :=
  ⟨rfl, rfl, rfl⟩

/-- C3: the image list carried by the record-store write equals
`existingImages ++ successfullyUploadedURLs`: the existing images are the
prefix (in their order) and the successfully uploaded URLs the remaining
suffix (in their order). -/
theorem submit_finalImages_append (env : StoreEnv) (pid : Option Int)
    (st : FormState) :
    (handleSubmit env pid st).finalImages
        = st.existingImages ++ uploadImages env st.pendingUploads
    ∧ ((handleSubmit env pid st).recordWrite.payload).images
        = st.existingImages ++ uploadImages env st.pendingUploads
    ∧ st.existingImages <+: (handleSubmit env pid st).finalImages
    ∧ (handleSubmit env pid st).finalImages.take st.existingImages.length
        = st.existingImages
    ∧ (handleSubmit env pid st).finalImages.drop st.existingImages.length
        = uploadImages env st.pendingUploads := by
  refine ⟨rfl, ?_, ⟨uploadImages env st.pendingUploads, rfl⟩,
    List.take_left _ _, List.drop_left _ _⟩
  by_cases h : idTruthy pid = true <;>
    simp [handleSubmit, h, RecordWrite.payload]

/-- C9: `handleSubmit` leaves `existingImages` unchanged on every exit path,
even while it resets `pendingUploads` and `pendingDeletions`. -/
theorem submit_frames_existingImages (env : StoreEnv) (pid : Option Int)
    (st : FormState) :
    (handleSubmit env pid st).state.existingImages = st.existingImages
    ∧ (handleSubmit env pid st).state.pendingUploads = []
    ∧ (handleSubmit env pid st).state.pendingDeletions = [] :=
  ⟨rfl, rfl, rfl⟩

/-- C1 (amended): when the record-store write fails the submission aborts —
no navigation — and the cleanup still runs; but the error is caught at the
submission boundary and only logged to the console: it is not rethrown to the
caller. -/
theorem submit_record_failure_aborts (env : StoreEnv) (pid : Option Int)
    (st : FormState) (h : env.recordOk = false) :
    (handleSubmit env pid st).navigated = false
    ∧ (handleSubmit env pid st).recordErrorLogged = true
    ∧ (handleSubmit env pid st).rethrown = false
    ∧ (handleSubmit env pid st).state.pendingUploads = []
    ∧ (handleSubmit env pid st).state.pendingDeletions = [] := by
  refine ⟨h, ?_, rfl, rfl, rfl⟩
  show (!env.recordOk) = true
  rw [h]
  rfl

/-- Witness for C1's amended theorem at a concrete failing environment. -/
theorem submit_record_failure_aborts_witness :
    (handleSubmit envRecordFail none stSample).navigated = false
    ∧ (handleSubmit envRecordFail none stSample).recordErrorLogged = true
    ∧ (handleSubmit envRecordFail none stSample).rethrown = false
    ∧ (handleSubmit envRecordFail none stSample).state.pendingUploads = []
    ∧ (handleSubmit envRecordFail none stSample).state.pendingDeletions = [] :=
  submit_record_failure_aborts envRecordFail none stSample rfl

/-- C1 counterexample: on a failing record-store write the error is logged in
the `catch` block and never rethrown, so it is not propagated to the caller as
the claim states. -/
theorem submit_record_failure_swallowed_cex :
    envRecordFail.recordOk = false
    ∧ (handleSubmit envRecordFail none stSample).recordErrorLogged = true
    ∧ (handleSubmit envRecordFail none stSample).rethrown = false :=
  ⟨rfl, rfl, rfl⟩

/-- C6 (amended): during the delete phase, a delete is issued at
`products/` ++ last path segment for every pending-deletion URL whose last
segment is nonempty (a URL whose last segment is the empty string is skipped by
the `if (fileName)` guard); individual delete failures are only logged and the
rest of the submission is entirely independent of delete outcomes. -/
theorem submit_delete_phase (env : StoreEnv) (pid : Option Int) (st : FormState) :
    (handleSubmit env pid st).deletesIssued = deleteOldImages st.pendingDeletions
    ∧ (∀ url ∈ st.pendingDeletions, lastSegment url ≠ "" →
        ("products/" ++ lastSegment url) ∈ (handleSubmit env pid st).deletesIssued)
    ∧ (∀ d : String → Bool,
        (handleSubmit { env with deleteOk := d } pid st).navigated
            = (handleSubmit env pid st).navigated
        ∧ (handleSubmit { env with deleteOk := d } pid st).recordWrite
            = (handleSubmit env pid st).recordWrite
        ∧ (handleSubmit { env with deleteOk := d } pid st).finalImages
            = (handleSubmit env pid st).finalImages
        ∧ (handleSubmit { env with deleteOk := d } pid st).state
            = (handleSubmit env pid st).state) := by
  refine ⟨rfl, ?_, fun d => ⟨rfl, rfl, rfl, rfl⟩⟩
  intro url hmem hseg
  show ("products/" ++ lastSegment url) ∈ deleteOldImages st.pendingDeletions
  unfold deleteOldImages
  exact List.mem_filterMap.mpr ⟨url, hmem, by simp [hseg]⟩

/-- Witness for C6's amended theorem: the delete for the sample pending
deletion is issued at its derived path. -/
theorem submit_delete_phase_witness :
    ("products/" ++ lastSegment "https://cdn.example/storage/products/old.png")
      ∈ (handleSubmit envGood none stSample).deletesIssued :=
  (submit_delete_phase envGood none stSample).2.1
    "https://cdn.example/storage/products/old.png" (by decide) (by decide)

/-- A state whose single pending deletion is a URL ending in a slash, so its
last path segment is empty. -/
def stSlash : FormState :=
  { name := "chair", description := "", price := 25
    existingImages := []
    pendingUploads := []
    pendingDeletions := ["bad/"] }

/-- C6 counterexample: for the pending-deletion URL `"bad/"` (empty last
segment) no delete at all is issued, contradicting the claim that a delete is
issued for every URL in `pendingDeletions`. -/
theorem submit_delete_skips_empty_segment_cex :
    "bad/" ∈ stSlash.pendingDeletions
    ∧ (handleSubmit envGood none stSlash).deletesIssued = [] :=
  ⟨by decide, by decide⟩

/-- C7 (amended): when the product id is present and nonzero (JavaScript-truthy
under `if (initialProduct?.id)`), an update of
`{name, description, price, images: finalImages}` keyed by that id is issued;
when the id is absent — or present but `0`, which is JavaScript-falsy — an
insert of the same fields without an id is issued. -/
theorem submit_record_write_shape (env : StoreEnv) (pid : Option Int)
    (st : FormState) :
    (∀ i : Int, pid = some i → i ≠ 0 →
      (handleSubmit env pid st).recordWrite
        = RecordWrite.update i
            { name := st.name, description := st.description, price := st.price
              images := (handleSubmit env pid st).finalImages })
    ∧ (pid = none ∨ pid = some 0 →
      (handleSubmit env pid st).recordWrite
        = RecordWrite.insert
            { name := st.name, description := st.description, price := st.price
              images := (handleSubmit env pid st).finalImages }) := by
  constructor
  · rintro i rfl hi
    have ht : idTruthy (some i) = true := by simp [idTruthy, hi]
    simp [handleSubmit, ht]
  · rintro (rfl | rfl) <;> simp [handleSubmit, idTruthy]

/-- Witness for C7's amended theorem at a concrete nonzero id. -/
theorem submit_record_write_shape_witness :
    (handleSubmit envGood (some 5) stSample).recordWrite
      = RecordWrite.update 5
          { name := stSample.name, description := stSample.description
            price := stSample.price
            images := (handleSubmit envGood (some 5) stSample).finalImages } :=
  (submit_record_write_shape envGood (some 5) stSample).1 5 rfl (by decide)

/-- C7 counterexample: a product whose id is present but equal to `0` is
JavaScript-falsy under `if (initialProduct?.id)`, so an insert is issued
instead of the update keyed by that id that the claim requires. -/
theorem submit_id_zero_inserts_cex :
    (handleSubmit envGood (some 0) stSample).recordWrite
      = RecordWrite.insert
          { name := stSample.name, description := stSample.description
            price := stSample.price
            images := (handleSubmit envGood (some 0) stSample).finalImages }
    ∧ (handleSubmit envGood (some 0) stSample).recordWrite
        ≠ RecordWrite.update 0
            { name := stSample.name, description := stSample.description
              price := stSample.price
              images := (handleSubmit envGood (some 0) stSample).finalImages } :=
  ⟨rfl, fun h => RecordWrite.noConfusion h⟩

/-- C4: in every submission, the uploaded-URL list is exactly the per-entry
upload results with the failures dropped: every entry whose upload fails
contributes nothing (all entries failing yields the empty list), every entry
whose upload succeeds still contributes its URL (no abort of the other
uploads), and whether the submission succeeds depends only on the record-store
write.  In particular, with two pending files whose first upload fails and
second succeeds, `finalImages` is `existingImages` plus only the successfully
uploaded URL. -/
theorem submit_upload_failure_dropped (env : StoreEnv) (pid : Option Int)
    (st : FormState) :
    (handleSubmit env pid st).uploadedUrls
        = (List.range st.pendingUploads.length).filterMap env.upload
    ∧ (∀ i, i < st.pendingUploads.length → ∀ u, env.upload i = some u →
        u ∈ (handleSubmit env pid st).uploadedUrls)
    ∧ ((∀ i, i < st.pendingUploads.length → env.upload i = none) →
        (handleSubmit env pid st).uploadedUrls = [])
    ∧ (handleSubmit env pid st).navigated = env.recordOk
    ∧ (handleSubmit env pid st).finalImages
        = st.existingImages ++ (handleSubmit env pid st).uploadedUrls
    ∧ (st.pendingUploads.length = 2 → env.upload 0 = none →
        ∀ u, env.upload 1 = some u →
          (handleSubmit env pid st).uploadedUrls = [u]
          ∧ (handleSubmit env pid st).finalImages
              = st.existingImages ++ [u]) := by
  refine ⟨rfl, ?_, ?_, rfl, rfl, ?_⟩
  · intro i hi u hu
    show u ∈ (List.range st.pendingUploads.length).filterMap env.upload
    exact List.mem_filterMap.mpr ⟨i, List.mem_range.mpr hi, hu⟩
  · intro hall
    show (List.range st.pendingUploads.length).filterMap env.upload = []
    exact List.filterMap_eq_nil_iff.mpr
      (fun i hi => hall i (List.mem_range.mp hi))
  · intro h2 h0 u h1
    have hu : uploadImages env st.pendingUploads = [u] := by
      unfold uploadImages
      rw [h2]
      show List.filterMap env.upload [0, 1] = [u]
      rw [List.filterMap_cons_none h0, List.filterMap_cons_some h1,
        List.filterMap_nil]
    refine ⟨hu, ?_⟩
    show st.existingImages ++ uploadImages env st.pendingUploads
        = st.existingImages ++ [u]
    rw [hu]

/-- A state with two pending uploads. -/
def stTwo : FormState :=
  { name := "chair", description := "", price := 25
    existingImages := ["https://cdn.example/storage/products/a.png"]
    pendingUploads := [⟨"n1.png", 1⟩, ⟨"n2.png", 2⟩]
    pendingDeletions := [] }

/-- Witness for C4's theorem: two pending files, the first upload fails and
the second succeeds; its URL is kept, the failed entry is dropped, and the
submission navigates. -/
theorem submit_upload_failure_dropped_witness :
    (handleSubmit envHalf none stTwo).uploadedUrls
        = ["https://cdn.example/storage/products/second.png"]
    ∧ (handleSubmit envHalf none stTwo).finalImages
        = ["https://cdn.example/storage/products/a.png",
           "https://cdn.example/storage/products/second.png"]
    ∧ (handleSubmit envHalf none stTwo).navigated = true := by
  obtain ⟨-, -, -, hnav, -, hsc⟩ :=
    submit_upload_failure_dropped envHalf none stTwo
  have h := hsc rfl rfl "https://cdn.example/storage/products/second.png" rfl
  exact ⟨h.1, h.2, hnav⟩

/-- C8: running `handleSubmit` twice with no edits in between and all stores
succeeding yields, on the second run, exactly the `existingImages` prefix of
the first run's `finalImages` (newly uploaded URLs are fresh per run and the
second run has none pending). -/
theorem submit_idempotent_on_existing (env1 env2 : StoreEnv) (pid : Option Int)
    (st : FormState) (h1 : env1.recordOk = true) (h2 : env2.recordOk = true) :
    (handleSubmit env2 pid (handleSubmit env1 pid st).state).finalImages
        = st.existingImages
    ∧ (handleSubmit env2 pid (handleSubmit env1 pid st).state).finalImages
        = ((handleSubmit env1 pid st).finalImages).take st.existingImages.length
    ∧ (handleSubmit env1 pid st).navigated = true
    ∧ (handleSubmit env2 pid (handleSubmit env1 pid st).state).navigated = true := by
  have hfin : (handleSubmit env2 pid (handleSubmit env1 pid st).state).finalImages
      = st.existingImages := by
    show st.existingImages ++ uploadImages env2 [] = st.existingImages
    simp [uploadImages]
  refine ⟨hfin, ?_, h1, h2⟩
  rw [hfin]
  show st.existingImages
      = (st.existingImages ++ uploadImages env1 st.pendingUploads).take
          st.existingImages.length
  rw [List.take_left]

/-- Witness for C8's theorem at a concrete state and all-success environment. -/
theorem submit_idempotent_on_existing_witness :
    (handleSubmit envGood none (handleSubmit envGood none stSample).state).finalImages
      = stSample.existingImages :=
  (submit_idempotent_on_existing envGood envGood none stSample rfl rfl).1

/-- C10: `removeNewImage i` with `i` in range releases exactly entry `i`'s
preview reference and removes exactly that entry (keeping the others in
order); with `i` out of range it dereferences a nonexistent entry and fails
(modelled as `none`) instead of acting as a no-op. -/
theorem removeNewImage_in_range_or_fails (st : FormState) (i : Nat) :
    (∀ h : i < st.pendingUploads.length,
      removeNewImage st i
        = some ((st.pendingUploads.get ⟨i, h⟩).preview,
            { st with pendingUploads :=
                st.pendingUploads.take i ++ st.pendingUploads.drop (i + 1) }))
    ∧ (st.pendingUploads.length ≤ i → removeNewImage st i = none) := by
  constructor
  · intro h
    unfold removeNewImage
    rw [List.getElem?_eq_getElem h]
    rw [removeAtIdx_eq_eraseIdx, List.eraseIdx_eq_take_drop_succ]
    rfl
  · intro h
    unfold removeNewImage
    rw [List.getElem?_eq_none h]

/-- Witness for C10's theorem: in range at index 0 of two entries, and out of
range at index 5. -/
theorem removeNewImage_in_range_or_fails_witness :
    removeNewImage stTwo 0
      = some (1, { stTwo with pendingUploads :=
          stTwo.pendingUploads.take 0 ++ stTwo.pendingUploads.drop 1 })
    ∧ removeNewImage stTwo 5 = none :=
  ⟨(removeNewImage_in_range_or_fails stTwo 0).1 (by decide),
   (removeNewImage_in_range_or_fails stTwo 5).2 (by decide)⟩

/-- C5 (amended): provided the working set holds no duplicate URL across
`existingImages` and `pendingDeletions` (the `ImagesInv` invariant),
`removeExistingImage i` with `i` in range puts `existingImages[i]` into
`pendingDeletions` exactly once, removes it from `existingImages`, and
re-establishes the invariant — while every other operation (`addFiles`,
`removeNewImage`, `handleSubmit`) also preserves the invariant, so no URL is
ever simultaneously in both lists. -/
theorem removeExistingImage_disjointness (st : FormState) (i : Nat)
    (hInv : ImagesInv st) (hi : i < st.existingImages.length) :
    st.existingImages[i] ∉ (removeExistingImage st i).existingImages
    ∧ (removeExistingImage st i).pendingDeletions.count st.existingImages[i] = 1
    ∧ ImagesInv (removeExistingImage st i)
    ∧ (∀ fs, ImagesInv (addFiles st fs))
    ∧ (∀ j p st', removeNewImage st j = some (p, st') → ImagesInv st')
    ∧ (∀ env pid, ImagesInv ((handleSubmit env pid st).state)) := by
  obtain ⟨hex, hpd, hdisj⟩ := List.nodup_append.mp hInv
  have humem : st.existingImages[i] ∈ st.existingImages := List.getElem_mem hi
  have hnotpd : st.existingImages[i] ∉ st.pendingDeletions := fun hc => hdisj humem hc
  have hgetd : st.existingImages.getD i "" = st.existingImages[i] :=
    List.getD_eq_getElem _ _ hi
  have hnerase : st.existingImages[i] ∉ st.existingImages.eraseIdx i := by
    intro hmem
    obtain ⟨j, hj, hget⟩ := List.mem_eraseIdx_iff_getElem?.mp hmem
    have hjlt : j < st.existingImages.length := by
      by_contra hge
      rw [List.getElem?_eq_none (Nat.le_of_not_lt hge)] at hget
      exact Option.noConfusion hget
    rw [List.getElem?_eq_getElem hjlt] at hget
    have heq : st.existingImages[j] = st.existingImages[i] :=
      Option.some.inj hget
    exact hj (hex.getElem_inj_iff.mp heq)
  have herase : (removeExistingImage st i).existingImages
      = st.existingImages.eraseIdx i := removeAtIdx_eq_eraseIdx _ _
  refine ⟨?_, ?_, ?_, ?_, ?_, ?_⟩
  · rw [herase]; exact hnerase
  · show (st.pendingDeletions ++ [st.existingImages.getD i ""]).count
        st.existingImages[i] = 1
    rw [hgetd, List.count_append, List.count_eq_zero.mpr hnotpd,
      List.count_singleton_self]
  · show ((removeExistingImage st i).existingImages
        ++ (st.pendingDeletions ++ [st.existingImages.getD i ""])).Nodup
    rw [herase, hgetd]
    refine List.nodup_append.mpr ⟨(List.eraseIdx_sublist _ _).nodup hex, ?_, ?_⟩
    · refine List.nodup_append.mpr ⟨hpd, List.nodup_singleton _, ?_⟩
      intro a ha hb
      rw [List.mem_singleton] at hb
      exact hnotpd (hb ▸ ha)
    · intro a ha hb
      have hax : a ∈ st.existingImages := List.mem_of_mem_eraseIdx ha
      rcases List.mem_append.mp hb with hpd' | hu'
      · exact hdisj hax hpd'
      · rw [List.mem_singleton] at hu'
        exact hnerase (hu' ▸ ha)
  · intro fs; exact hInv
  · intro j p st' hrm
    unfold removeNewImage at hrm
    cases hj : st.pendingUploads[j]? with
    | none => rw [hj] at hrm; exact Option.noConfusion hrm
    | some entry =>
        rw [hj] at hrm
        cases hrm
        exact hInv
  · intro env pid
    show (st.existingImages ++ ([] : List String)).Nodup
    rw [List.append_nil]
    exact hex

/-- A duplicate-free sample working set. -/
def stInv : FormState :=
  { name := "chair", description := "", price := 25
    existingImages := ["https://cdn.example/storage/products/a.png",
                       "https://cdn.example/storage/products/b.png"]
    pendingUploads := []
    pendingDeletions := ["https://cdn.example/storage/products/c.png"] }

/-- Witness for C5's amended theorem at index 0 of a duplicate-free state. -/
theorem removeExistingImage_disjointness_witness :
    "https://cdn.example/storage/products/a.png"
        ∉ (removeExistingImage stInv 0).existingImages
    ∧ (removeExistingImage stInv 0).pendingDeletions.count
        "https://cdn.example/storage/products/a.png" = 1
    ∧ ImagesInv (removeExistingImage stInv 0) := by
  have h := removeExistingImage_disjointness stInv 0 (by decide) (by decide)
  exact ⟨h.1, h.2.1, h.2.2.1⟩

/-- A working set whose `existingImages` holds the same URL twice. -/
def stDup : FormState :=
  { name := "chair", description := "", price := 25
    existingImages := ["https://cdn.example/storage/products/a.png",
                       "https://cdn.example/storage/products/a.png"]
    pendingUploads := []
    pendingDeletions := [] }

/-- C5 counterexample: with `existingImages = [A, A]`,
`removeExistingImage 0` leaves `A` in `existingImages` while also putting it
into `pendingDeletions`, so the removed URL is still in `existingImages` and
one URL is simultaneously in both lists. -/
theorem removeExistingImage_duplicate_cex :
    "https://cdn.example/storage/products/a.png" ∈ stDup.existingImages
    ∧ "https://cdn.example/storage/products/a.png"
        ∈ (removeExistingImage stDup 0).existingImages
    ∧ "https://cdn.example/storage/products/a.png"
        ∈ (removeExistingImage stDup 0).pendingDeletions := by
  refine ⟨?_, ?_, ?_⟩ <;> decide

end ProductForm
